import Mathlib

/-!
Formal model of the API service layer of the PopKing AI repository
(src/services/apiService.js): the retrying HTTP invoker `fetchWithRetry`,
the PCM16-to-WAV container encoder `pcmToWav`, the base64 decoder used for
audio payloads, and the four response-shaping generator functions
(`generateTextContent`, `generateStructuredStudyContent`,
`generateImageContent`, `generateTTSAudio`).

Machine integers are modelled as `Nat`/`Int` with explicit `% 2 ^ w` where
the source wraps (DataView setters); real-valued delays and jitter
(`Math.random() * 1000`) are modelled over `ℚ`; fallible operations
(thrown exceptions) are modelled with `Option`/`Except`.
-/

namespace ApiService

/-! ### Retrying HTTP invoker (`fetchWithRetry`)

One invocation is modelled against a `trace` assigning to each attempt
number the outcome of that attempt's `fetch`, and a `jitter` function
giving the value of `Math.random() * 1000` drawn at each attempt. -/

/-- Outcome of a single `fetch` attempt: the promise rejects (transport
failure), or an HTTP response arrives with a status code, a body text
(read by `response.text()` on error paths) and a parsed JSON payload. -/
inductive Outcome (α : Type) where
  | netError : Outcome α
  | resp (status : Nat) (bodyText : String) (payload : α) : Outcome α

/-- Errors that `fetchWithRetry` can ultimately throw: the `Error` built
from a non-2xx status and the response body text, or the transport error. -/
inductive FetchError where
  | httpError (status : Nat) (bodyText : String) : FetchError
  | netError : FetchError
deriving DecidableEq

/-- Result of one whole `fetchWithRetry` invocation. -/
inductive FetchResult (α : Type) where
  | success (payload : α) : FetchResult α
  | failure (e : FetchError) : FetchResult α
deriving DecidableEq

/-- `response.ok` of the Fetch API: status in the range 200..299. -/
def respOk (status : Nat) : Bool := 200 ≤ status && status < 300

/-- `const maxRetries = 3` in `fetchWithRetry`. -/
def maxRetries : Nat := 3

/-- The delay computed before a retry:
`Math.pow(2, retries) * 1000 + Math.random() * 1000`, with the random draw
passed in as `jitter`. -/
def backoffDelay (retries : Nat) (jitter : ℚ) : ℚ := 2 ^ retries * 1000 + jitter

/-- Fuel-indexed body of `fetchWithRetry`.  Mirrors the source exactly:
the `throw new Error(...)` raised for a non-ok status sits inside the
`try` block, so it is caught by the function's own `catch`, which retries
whenever `retries < maxRetries`; only at exhaustion does the error
propagate.  The returned list collects the delays slept, in order.
Fuel `maxRetries + 1 - retries` always suffices, so the fuel-0 case is
unreachable from the entry point. -/
def fwr {α : Type} (trace : Nat → Outcome α) (jitter : Nat → ℚ) :
    Nat → Nat → FetchResult α × List ℚ
  | 0, _ => (.failure .netError, [])
  | fuel + 1, retries =>
    match trace retries with
    | .resp status bodyText payload =>
      if respOk status then (.success payload, [])
      else if status = 429 ∧ retries < maxRetries then
        let d := backoffDelay retries (jitter retries)
        let r := fwr trace jitter fuel (retries + 1)
        (r.1, d :: r.2)
      else if retries < maxRetries then
        -- the thrown status error is caught by the surrounding catch block
        let d := backoffDelay retries (jitter retries)
        let r := fwr trace jitter fuel (retries + 1)
        (r.1, d :: r.2)
      else (.failure (.httpError status bodyText), [])
    | .netError =>
      if retries < maxRetries then
        let d := backoffDelay retries (jitter retries)
        let r := fwr trace jitter fuel (retries + 1)
        (r.1, d :: r.2)
      else (.failure .netError, [])

/-- The recursive call `fetchWithRetry(url, options, retries)` entered at a
given retry counter. -/
def fetchFrom {α : Type} (trace : Nat → Outcome α) (jitter : Nat → ℚ)
    (retries : Nat) : FetchResult α × List ℚ :=
  fwr trace jitter (maxRetries + 1 - retries) retries

/-- Entry point `fetchWithRetry(url, options)` (default `retries = 0`). -/
def fetchWithRetry {α : Type} (trace : Nat → Outcome α) (jitter : Nat → ℚ) :
    FetchResult α × List ℚ :=
  fetchFrom trace jitter 0

/-- The delays a run would sleep starting at attempt `start` for `k`
consecutive retries. -/
def expectedDelays (jitter : Nat → ℚ) : Nat → Nat → List ℚ
  | _, 0 => []
  | start, k + 1 => backoffDelay start (jitter start) :: expectedDelays jitter (start + 1) k

/-! ### WAV encoder (`pcmToWav`) and its byte-level helpers -/

/-- Little-endian bytes of a 16-bit field as written by `setUint16(_, n, true)`. -/
def le16 (n : Nat) : List Nat := [n % 256, n / 256 % 256]

/-- Little-endian bytes of a 32-bit field as written by `setUint32(_, n, true)`. -/
def le32 (n : Nat) : List Nat :=
  [n % 256, n / 256 % 256, n / 65536 % 256, n / 16777216 % 256]

/-- `writeString`: each character's `charCodeAt` stored via `setUint8`
(which wraps modulo 256). -/
def asciiBytes (s : String) : List Nat := s.data.map (fun c => c.toNat % 256)

/-- The unsigned 16-bit two's-complement representation stored by
`setInt16(_, s, true)`. -/
def toUInt16Rep (s : Int) : Nat := (s % 65536).toNat

/-- The two little-endian bytes of one sample. -/
def int16Bytes (s : Int) : List Nat := le16 (toUInt16Rep s)

/-- The payload written by the sample loop of `pcmToWav`. -/
def pcmDataBytes : List Int → List Nat
  | [] => []
  | s :: rest => int16Bytes s ++ pcmDataBytes rest

/-- `const numChannels = 1`. -/
def numChannels : Nat := 1

/-- `const bytesPerSample = 2`. -/
def bytesPerSample : Nat := 2

/-- `const blockAlign = numChannels * bytesPerSample`. -/
def blockAlign : Nat := numChannels * bytesPerSample

/-- The WAV container built by `pcmToWav`: the 44-byte RIFF/WAVE/fmt/data
header followed by the raw little-endian sample bytes, as the byte content
of the returned Blob. -/
def pcmToWav (pcm16 : List Int) (sampleRate : Nat) : List Nat :=
  let byteLength := 2 * pcm16.length
  let byteRate := sampleRate * blockAlign
  asciiBytes "RIFF" ++ le32 (36 + byteLength) ++ asciiBytes "WAVE" ++
    asciiBytes "fmt " ++ le32 16 ++ le16 1 ++ le16 numChannels ++
    le32 sampleRate ++ le32 byteRate ++ le16 blockAlign ++ le16 16 ++
    asciiBytes "data" ++ le32 byteLength ++ pcmDataBytes pcm16

/-- Read a byte of the container (0 past the end, as a total model). -/
def byteAt (bs : List Nat) (i : Nat) : Nat := bs.getD i 0

/-- Read back a little-endian 16-bit field. -/
def readLE16 (bs : List Nat) (off : Nat) : Nat :=
  byteAt bs off + 256 * byteAt bs (off + 1)

/-- Read back a little-endian 32-bit field. -/
def readLE32 (bs : List Nat) (off : Nat) : Nat :=
  byteAt bs off + 256 * byteAt bs (off + 1) + 65536 * byteAt bs (off + 2) +
    16777216 * byteAt bs (off + 3)

/-- Signed 16-bit value of an unsigned representation, as an `Int16Array`
element exposes it. -/
def toInt16 (u : Nat) : Int :=
  if u % 65536 < 32768 then ((u % 65536 : Nat) : Int)
  else ((u % 65536 : Nat) : Int) - 65536

/-- Reinterpret a little-endian byte sequence as signed 16-bit samples
(`new Int16Array(buffer)` on an even-length buffer). -/
def bytesToInt16List : List Nat → List Int
  | b0 :: b1 :: rest => toInt16 (b0 + 256 * b1) :: bytesToInt16List rest
  | _ => []

/-! ### Response envelope of the generateContent endpoints -/

/-- `attribution.web` record: `{uri, title}`, either possibly absent. -/
structure WebSource where
  uri : Option String := none
  title : Option String := none
deriving DecidableEq

/-- One entry of `groundingMetadata.groundingAttributions`. -/
structure GroundingAttribution where
  web : Option WebSource := none
deriving DecidableEq

/-- `candidate.groundingMetadata`. -/
structure GroundingMetadata where
  groundingAttributions : Option (List GroundingAttribution) := none
deriving DecidableEq

/-- `part.inlineData` of a speech response: base64 `data` and `mimeType`. -/
structure InlineData where
  data : Option String := none
  mimeType : Option String := none
deriving DecidableEq

/-- One element of `content.parts`. -/
structure Part where
  text : Option String := none
  inlineData : Option InlineData := none
deriving DecidableEq

/-- `candidate.content`. -/
structure Content where
  parts : List Part := []
deriving DecidableEq

/-- One element of `result.candidates`. -/
structure Candidate where
  content : Option Content := none
  groundingMetadata : Option GroundingMetadata := none
deriving DecidableEq

/-- The parsed JSON envelope returned by the text/structured/TTS endpoints. -/
structure GenResponse where
  candidates : Option (List Candidate) := none
deriving DecidableEq

/-- `result.candidates?.[0]`. -/
def firstCandidate (r : GenResponse) : Option Candidate :=
  r.candidates.bind List.head?

/-- `candidate.content?.parts?.[0]`. -/
def firstPartOf (c : Candidate) : Option Part :=
  c.content.bind (fun ct => ct.parts.head?)

/-- `candidate.content?.parts?.[0]?.text`. -/
def candidateText (c : Candidate) : Option String :=
  (firstPartOf c).bind Part.text

/-! ### Text generator (`generateTextContent`) -/

/-- One source record `{uri, title}` as built by the attribution map. -/
structure SourceRef where
  uri : Option String
  title : Option String
deriving DecidableEq

/-- Return value of `generateTextContent`. -/
structure TextResult where
  text : String
  sources : List SourceRef
deriving DecidableEq

/-- JavaScript truthiness of an optional string field: present and nonempty. -/
def truthy : Option String → Bool
  | some s => s ≠ ""
  | none => false

/-- The `.map(...).filter(...)` pipeline over `groundingAttributions`. -/
def extractSources (attrs : List GroundingAttribution) : List SourceRef :=
  (attrs.map (fun attribution =>
      SourceRef.mk (attribution.web.bind WebSource.uri)
        (attribution.web.bind WebSource.title))).filter
    (fun source => truthy source.uri && truthy source.title)

/-- The fixed diagnostic returned when no candidate text is available. -/
def textErrorResult : TextResult :=
  { text := "Error: Could not generate a response. Please check the API status.",
    sources := [] }

/-- Response shaping of `generateTextContent` (after `fetchWithRetry`
returned the parsed JSON `r`). -/
def generateTextContent (r : GenResponse) : TextResult :=
  match firstCandidate r with
  | none => textErrorResult
  | some candidate =>
    match candidateText candidate with
    | none => textErrorResult
    | some text =>
      if text ≠ "" then
        let sources :=
          match candidate.groundingMetadata with
          | some gm =>
            match gm.groundingAttributions with
            | some attrs => extractSources attrs
            | none => []
          | none => []
        { text := text, sources := sources }
      else textErrorResult

/-! ### JSON values and a model of `JSON.parse`

`JSON.parse` is a host builtin; it is modelled here as a recursive-descent
reader over the character list, returning `none` where `JSON.parse` throws
a `SyntaxError`.  String escapes and number lexemes are kept abstract (the
escape body and the lexeme are stored without interpretation), which is
enough because the service never inspects the parsed values. -/

/-- A parsed JSON value. -/
inductive Json where
  | null : Json
  | boolVal (b : Bool) : Json
  | num (lexeme : String) : Json
  | str (s : String) : Json
  | arr (elems : List Json) : Json
  | obj (fields : List (String × Json)) : Json

/-- JSON insignificant whitespace. -/
def jsonWs (c : Char) : Bool := c = ' ' || c = '\t' || c = '\n' || c = '\r'

/-- Drop leading JSON whitespace. -/
def skipWs (cs : List Char) : List Char := cs.dropWhile jsonWs

/-- Consume an exact literal, or fail. -/
def parseLit : List Char → List Char → Option (List Char)
  | [], rest => some rest
  | _ :: _, [] => none
  | l :: ls, c :: rest => if c = l then parseLit ls rest else none

/-- Body of a JSON string after the opening quote; escape sequences keep
their escaped character uninterpreted. -/
def parseStringBody : Nat → List Char → Option (String × List Char)
  | 0, _ => none
  | _, [] => none
  | fuel + 1, c :: rest =>
    if c = '"' then some ("", rest)
    else if c = '\\' then
      match rest with
      | [] => none
      | e :: rest2 =>
        (parseStringBody fuel rest2).map (fun p => (⟨e :: p.1.data⟩, p.2))
    else if c.toNat < 32 then none
    else (parseStringBody fuel rest).map (fun p => (⟨c :: p.1.data⟩, p.2))

/-- Lex a JSON number permissively: optional minus, then at least one
digit, then an uninterpreted tail of digits, dot and exponent characters. -/
def parseNumberLex (cs : List Char) : Option (String × List Char) :=
  let (sign, cs1) := match cs with
    | '-' :: r => (['-'], r)
    | _ => (([] : List Char), cs)
  match cs1 with
  | c :: _ =>
    if c.isDigit then
      let tail := cs1.takeWhile (fun d =>
        d.isDigit || d = '.' || d = 'e' || d = 'E' || d = '+' || d = '-')
      some (⟨sign ++ tail⟩, cs1.drop tail.length)
    else none
  | [] => none

mutual

/-- Parse one JSON value (leading whitespace allowed). -/
def parseValue : Nat → List Char → Option (Json × List Char)
  | 0, _ => none
  | fuel + 1, cs =>
    match skipWs cs with
    | [] => none
    | c :: rest =>
      if c = '"' then
        (parseStringBody (rest.length + 1) rest).map (fun p => (Json.str p.1, p.2))
      else if c = '{' then
        match skipWs rest with
        | '}' :: r2 => some (Json.obj [], r2)
        | cs2 => parseMembers fuel cs2
      else if c = '[' then
        match skipWs rest with
        | ']' :: r2 => some (Json.arr [], r2)
        | cs2 => parseElems fuel cs2
      else if c = 't' then
        (parseLit ['r', 'u', 'e'] rest).map (fun r => (Json.boolVal true, r))
      else if c = 'f' then
        (parseLit ['a', 'l', 's', 'e'] rest).map (fun r => (Json.boolVal false, r))
      else if c = 'n' then
        (parseLit ['u', 'l', 'l'] rest).map (fun r => (Json.null, r))
      else
        (parseNumberLex (c :: rest)).map (fun p => (Json.num p.1, p.2))

/-- Parse the remaining elements of a nonempty array, up to `]`. -/
def parseElems : Nat → List Char → Option (Json × List Char)
  | 0, _ => none
  | fuel + 1, cs => do
    let (v, r1) ← parseValue fuel cs
    match skipWs r1 with
    | ',' :: r2 => do
      let (restArr, r3) ← parseElems fuel r2
      match restArr with
      | Json.arr xs => some (Json.arr (v :: xs), r3)
      | _ => none
    | ']' :: r2 => some (Json.arr [v], r2)
    | _ => none

/-- Parse the remaining members of a nonempty object, up to `}`. -/
def parseMembers : Nat → List Char → Option (Json × List Char)
  | 0, _ => none
  | fuel + 1, cs =>
    match skipWs cs with
    | '"' :: r0 => do
      let (k, r1) ← parseStringBody (r0.length + 1) r0
      match skipWs r1 with
      | ':' :: r2 => do
        let (v, r3) ← parseValue fuel r2
        match skipWs r3 with
        | ',' :: r4 => do
          let (restObj, r5) ← parseMembers fuel r4
          match restObj with
          | Json.obj fs => some (Json.obj ((k, v) :: fs), r5)
          | _ => none
        | '}' :: r4 => some (Json.obj [(k, v)], r4)
        | _ => none
      | _ => none
    | _ => none

end

/-- Model of `JSON.parse`: parse one value, allow trailing whitespace only. -/
def jsonParse (s : String) : Option Json :=
  match parseValue (s.length + 1) s.data with
  | some (v, rest) => if skipWs rest = [] then some v else none
  | none => none

/-! ### Structured-content generator (`generateStructuredStudyContent`) -/

/-- The error-shaped single-item array returned on a missing or
unparseable payload. -/
def structuredErrorResult : Json :=
  Json.arr [Json.obj
    [("type", Json.str "error"),
     ("question", Json.str "Error generating study material."),
     ("answer", Json.str "Please try again with a clearer prompt.")]]

/-- Response shaping of `generateStructuredStudyContent`: read
`candidates?.[0]?.content?.parts?.[0]?.text`, check truthiness, parse it
as JSON; every failure inside the `try` lands in the `catch`, which
returns `structuredErrorResult`. -/
def generateStructuredStudyContent (r : GenResponse) : Json :=
  match (firstCandidate r).bind candidateText with
  | some jsonString =>
    if jsonString ≠ "" then
      match jsonParse jsonString with
      | some v => v
      | none => structuredErrorResult
    else structuredErrorResult
  | none => structuredErrorResult

/-! ### Image generator (`generateImageContent`) -/

/-- One element of `result.predictions`. -/
structure Prediction where
  bytesBase64Encoded : Option String := none
deriving DecidableEq

/-- The parsed JSON envelope returned by the image endpoint. -/
structure ImageResponse where
  predictions : Option (List Prediction) := none
deriving DecidableEq

/-- Response shaping of `generateImageContent`: requires a truthy
`predictions[0].bytesBase64Encoded` behind a nonempty `predictions`
array, else returns null. -/
def generateImageContent (r : ImageResponse) : Option String :=
  match r.predictions with
  | some ps =>
    match ps.head? with
    | some p =>
      match p.bytesBase64Encoded with
      | some s => if s ≠ "" then some ("data:image/png;base64," ++ s) else none
      | none => none
    | none => none
  | none => none

/-! ### Base64 decoding (`base64ToArrayBuffer`, built on `atob`)

`atob` implements the WHATWG forgiving-base64 decode: strip ASCII
whitespace, strip up to two trailing `=` when the length is a multiple of
four, reject a remaining length of 1 mod 4 and any character outside the
base64 alphabet, and emit 3 bytes per 4 characters (2 or 3 trailing
characters yield 1 or 2 bytes).  `none` models the thrown
`InvalidCharacterError`. -/

/-- ASCII whitespace stripped by forgiving-base64. -/
def isAsciiWs (c : Char) : Bool :=
  c = '\t' || c = '\n' || c = '\x0c' || c = '\r' || c = ' '

/-- Membership in the base64 alphabet. -/
def isB64Char (c : Char) : Bool :=
  ('A' ≤ c && c ≤ 'Z') || ('a' ≤ c && c ≤ 'z') || c.isDigit || c = '+' || c = '/'

/-- The 6-bit value of a base64 alphabet character. -/
def b64Val (c : Char) : Nat :=
  if 'A' ≤ c && c ≤ 'Z' then c.toNat - 65
  else if 'a' ≤ c && c ≤ 'z' then c.toNat - 97 + 26
  else if c.isDigit then c.toNat - 48 + 52
  else if c = '+' then 62
  else 63

/-- Reassemble 6-bit groups into bytes. -/
def b64Groups : List Nat → Option (List Nat)
  | [] => some []
  | [_] => none
  | [a, b] => some [a * 4 + b / 16]
  | [a, b, c] => some [a * 4 + b / 16, b % 16 * 16 + c / 4]
  | a :: b :: c :: d :: rest =>
    (b64Groups rest).map (fun bs =>
      (a * 4 + b / 16) :: (b % 16 * 16 + c / 4) :: (c % 4 * 64 + d) :: bs)

/-- `base64ToArrayBuffer`: the byte sequence `atob` decodes, or `none`
where `atob` throws. -/
def atobBytes (s : String) : Option (List Nat) :=
  let cs := s.data.filter (fun c => !isAsciiWs c)
  let cs2 :=
    if cs.length % 4 = 0 then
      match cs.reverse with
      | '=' :: '=' :: rest => rest.reverse
      | '=' :: rest => rest.reverse
      | _ => cs
    else cs
  if cs2.length % 4 = 1 then none
  else if cs2.all isB64Char then b64Groups (cs2.map b64Val)
  else none

/-! ### Speech synthesizer (`generateTTSAudio`) -/

/-- Digits-to-number conversion of `parseInt(digits, 10)`. -/
def parseDigits (ds : List Char) : Nat :=
  ds.foldl (fun acc c => acc * 10 + (c.toNat - 48)) 0

/-- At a position where `rate=` just matched, capture `(\d+)`. -/
def rateAfter (cs : List Char) : Option Nat :=
  let ds := cs.takeWhile Char.isDigit
  if ds = [] then none else some (parseDigits ds)

/-- Character-list prefix test. -/
def prefixEq : List Char → List Char → Bool
  | [], _ => true
  | _ :: _, [] => false
  | p :: ps, c :: cs => p = c && prefixEq ps cs

/-- Model of `s.startsWith(pre)`. -/
def strStartsWith (s pre : String) : Bool := prefixEq pre.data s.data

/-- Attempt to match `rate=(\d+)` exactly at the current position. -/
def rateHere : List Char → Option Nat
  | 'r' :: 'a' :: 't' :: 'e' :: '=' :: rest => rateAfter rest
  | _ => none

/-- Leftmost match of the regex `rate=(\d+)` over the character list:
try the current position, else advance one character. -/
def findRateMatch : List Char → Option Nat
  | [] => none
  | c :: rest =>
    match rateHere (c :: rest) with
    | some n => some n
    | none => findRateMatch rest

/-- `mimeType.match(/rate=(\d+)/)`, returning the captured number. -/
def extractRate (m : String) : Option Nat := findRateMatch m.data

/-- `rateMatch ? parseInt(rateMatch[1], 10) : 24000`. -/
def ttsSampleRate (m : String) : Nat := (extractRate m).getD 24000

/-- `part?.inlineData?.data`. -/
def ttsAudioData (r : GenResponse) : Option String :=
  ((firstCandidate r).bind firstPartOf).bind (fun p => p.inlineData.bind InlineData.data)

/-- `part?.inlineData?.mimeType`. -/
def ttsMimeType (r : GenResponse) : Option String :=
  ((firstCandidate r).bind firstPartOf).bind (fun p => p.inlineData.bind InlineData.mimeType)

/-- Exceptions that can escape `generateTTSAudio` (it has no try/catch of
its own): `atob` throwing on malformed base64, and the `Int16Array`
constructor throwing on a buffer of odd byte length. -/
inductive TTSError where
  | invalidBase64 : TTSError
  | oddByteLength : TTSError
deriving DecidableEq

/-- Response shaping of `generateTTSAudio`: on truthy inline data whose
MIME type starts with `audio/L16`, decode the base64 payload, reinterpret
it as signed 16-bit samples and encode them with `pcmToWav` at the
extracted sample rate; `ok (some bytes)` stands for the returned blob URL
over those WAV bytes, `ok none` for the null return, `error` for an
escaped exception. -/
def generateTTSAudio (r : GenResponse) : Except TTSError (Option (List Nat)) :=
  match ttsAudioData r, ttsMimeType r with
  | some audioData, some mimeType =>
    if audioData ≠ "" && strStartsWith mimeType "audio/L16" then
      match atobBytes audioData with
      | none => .error .invalidBase64
      | some bytes =>
        if bytes.length % 2 = 0 then
          .ok (some (pcmToWav (bytesToInt16List bytes) (ttsSampleRate mimeType)))
        else .error .oddByteLength
    else .ok none
  | _, _ => .ok none

/-! ## Helper lemmas -/

/-- The delays slept by a run of the invoker are exactly the backoff
delays of the consecutive attempts it retried. -/
lemma fwr_delays {α : Type} (trace : Nat → Outcome α) (jitter : Nat → ℚ) :
    ∀ fuel retries, (fwr trace jitter fuel retries).2
      = expectedDelays jitter retries ((fwr trace jitter fuel retries).2).length := by
  intro fuel
  induction fuel with
  | zero => intro retries; rfl
  | succ fuel ih =>
    intro retries
    have key : ∀ (p : FetchResult α × List ℚ),
        p.2 = expectedDelays jitter (retries + 1) p.2.length →
        (backoffDelay retries (jitter retries) :: p.2)
          = expectedDelays jitter retries
              ((backoffDelay retries (jitter retries) :: p.2)).length := by
      intro p hp
      simp only [List.length_cons, expectedDelays]
      rw [← hp]
    simp only [fwr]
    cases htr : trace retries with
    | netError =>
      by_cases hr : retries < maxRetries
      · simp only [if_pos hr]
        exact key _ (ih (retries + 1))
      · simp only [if_neg hr]; rfl
    | resp status bodyText payload =>
      by_cases hok : respOk status
      · simp only [if_pos hok]; rfl
      · simp only [if_neg hok]
        by_cases h429 : status = 429 ∧ retries < maxRetries
        · simp only [if_pos h429]
          exact key _ (ih (retries + 1))
        · simp only [if_neg h429]
          by_cases hr : retries < maxRetries
          · simp only [if_pos hr]
            exact key _ (ih (retries + 1))
          · simp only [if_neg hr]; rfl

/-- Reading back a 32-bit little-endian field recovers any value below `2^32`. -/
lemma le32_read (n : Nat) (h : n < 4294967296) :
    n % 256 + 256 * (n / 256 % 256) + 65536 * (n / 65536 % 256) +
      16777216 * (n / 16777216 % 256) = n := by omega

/-- Each sample contributes exactly two payload bytes. -/
lemma pcmDataBytes_length (pcm : List Int) :
    (pcmDataBytes pcm).length = 2 * pcm.length := by
  induction pcm with
  | nil => rfl
  | cons s rest ih =>
    simp only [pcmDataBytes, int16Bytes, le16, List.length_append, List.length_cons,
      List.length_nil, ih]
    omega

/-- Total size of the WAV container: the 44-byte header plus the payload. -/
lemma pcmToWav_length (pcm : List Int) (sr : Nat) :
    (pcmToWav pcm sr).length = 44 + 2 * pcm.length := by
  have hR : (asciiBytes "RIFF").length = 4 := rfl
  have hW : (asciiBytes "WAVE").length = 4 := rfl
  have hF : (asciiBytes "fmt ").length = 4 := rfl
  have hD : (asciiBytes "data").length = 4 := rfl
  simp only [pcmToWav, List.length_append, hR, hW, hF, hD, le32, le16,
    List.length_cons, List.length_nil, pcmDataBytes_length]
  try omega

/-- The WAV container written out field by field, as one explicit byte
list: the 44-byte header followed by the payload. -/
lemma pcmToWav_cons (pcm16 : List Int) (sr : Nat) :
    pcmToWav pcm16 sr =
      82 :: 73 :: 70 :: 70 ::
      ((36 + 2 * pcm16.length) % 256) :: ((36 + 2 * pcm16.length) / 256 % 256) ::
      ((36 + 2 * pcm16.length) / 65536 % 256) :: ((36 + 2 * pcm16.length) / 16777216 % 256) ::
      87 :: 65 :: 86 :: 69 ::
      102 :: 109 :: 116 :: 32 ::
      16 :: 0 :: 0 :: 0 ::
      1 :: 0 ::
      1 :: 0 ::
      (sr % 256) :: (sr / 256 % 256) :: (sr / 65536 % 256) :: (sr / 16777216 % 256) ::
      (sr * 2 % 256) :: (sr * 2 / 256 % 256) :: (sr * 2 / 65536 % 256) :: (sr * 2 / 16777216 % 256) ::
      2 :: 0 ::
      16 :: 0 ::
      100 :: 97 :: 116 :: 97 ::
      (2 * pcm16.length % 256) :: (2 * pcm16.length / 256 % 256) ::
      (2 * pcm16.length / 65536 % 256) :: (2 * pcm16.length / 16777216 % 256) ::
      pcmDataBytes pcm16 := by
  have hR : asciiBytes "RIFF" = [82, 73, 70, 70] := rfl
  have hW : asciiBytes "WAVE" = [87, 65, 86, 69] := rfl
  have hF : asciiBytes "fmt " = [102, 109, 116, 32] := rfl
  have hD : asciiBytes "data" = [100, 97, 116, 97] := rfl
  simp only [pcmToWav, le32, le16, hR, hW, hF, hD, blockAlign, numChannels, bytesPerSample,
    List.cons_append, List.nil_append]
  try norm_num

/-! ## Claims -/

/-- C1 (code bug): the spec states that for every non-2xx status other
than 429 the invoker fails immediately with zero additional retries.  In
the source, the `throw new Error(...)` for such a status sits inside the
`try` block of `fetchWithRetry`, so the function's own `catch` catches it
and retries.  Evaluated at the failing input — a server answering HTTP
400 with body "Bad Request" on every attempt — the invoker sleeps three
backoff delays (not zero) and only then fails with the error carrying the
status code and body text. -/
theorem c1_non429_error_retried_not_immediate :
    (fetchWithRetry (fun _ => Outcome.resp 400 "Bad Request" ()) (fun _ => 0)).1
        = FetchResult.failure (FetchError.httpError 400 "Bad Request") ∧
      ((fetchWithRetry (fun _ => Outcome.resp 400 "Bad Request" ()) (fun _ => 0)).2).length
        = 3 := by
  exact ⟨rfl, rfl⟩

/-- C2 (counterexample): the claim bounds the cumulative extra delay of a
retry-exhausting run by roughly 5000 ms.  On a server answering HTTP 429
on every attempt, even with all three jitter draws equal to 0 — the
minimum possible — the run exhausts its 3 retries and its delays sum to
`1000 + 2000 + 4000 = 7000` ms, which exceeds 5000 ms. -/
theorem c2_counterexample_delay_sum_is_7000 :
    ((fetchWithRetry (fun _ => Outcome.resp 429 "Rate limited" ()) (fun _ => 0)).2).length
        = 3 ∧
      ((fetchWithRetry (fun _ => Outcome.resp 429 "Rate limited" ()) (fun _ => 0)).2).sum
        = 7000 ∧
      ¬ ((fetchWithRetry (fun _ => Outcome.resp 429 "Rate limited" ()) (fun _ => 0)).2).sum
          ≤ 5000 := by
  have h : (fetchWithRetry (fun _ => Outcome.resp 429 "Rate limited" ()) (fun _ => 0)).2
      = [backoffDelay 0 0, backoffDelay 1 0, backoffDelay 2 0] := rfl
  have hsum : ((fetchWithRetry (fun _ => Outcome.resp 429 "Rate limited" ()) (fun _ => 0)).2).sum
      = (7000 : ℚ) := by
    rw [h]
    simp only [List.sum_cons, List.sum_nil, backoffDelay]
    norm_num
  refine ⟨by rw [h]; rfl, hsum, ?_⟩
  rw [hsum]
  norm_num

/-- C2 (amended): across one invocation of the invoker that exhausts all
3 retries, the cumulative extra delay introduced by the backoff sleeps is
`7000` ms plus the sum of the three jitter draws: at least 7000 ms and
strictly below 10000 ms for any jitter values in `[0, 1000)` — not
"at most roughly 5000 ms". -/
theorem c2_cumulative_delay_bounds {α : Type} (trace : Nat → Outcome α)
    (jitter : Nat → ℚ) (hj : ∀ i, 0 ≤ jitter i ∧ jitter i < 1000)
    (h3 : ((fetchWithRetry trace jitter).2).length = 3) :
    ((fetchWithRetry trace jitter).2).sum
        = 7000 + (jitter 0 + jitter 1 + jitter 2) ∧
      7000 ≤ ((fetchWithRetry trace jitter).2).sum ∧
      ((fetchWithRetry trace jitter).2).sum < 10000 := by
  have hd : (fetchWithRetry trace jitter).2
      = expectedDelays jitter 0 ((fetchWithRetry trace jitter).2).length :=
    fwr_delays trace jitter (maxRetries + 1) 0
  rw [h3] at hd
  have hsum : ((fetchWithRetry trace jitter).2).sum
      = 7000 + (jitter 0 + jitter 1 + jitter 2) := by
    rw [hd]
    simp only [expectedDelays, List.sum_cons, List.sum_nil, backoffDelay]
    ring
  obtain ⟨h00, h01⟩ := hj 0
  obtain ⟨h10, h11⟩ := hj 1
  obtain ⟨h20, h21⟩ := hj 2
  refine ⟨hsum, ?_, ?_⟩ <;> rw [hsum] <;> linarith

/-- Witness for the amended C2 at a concrete run: constant HTTP 429
responses with jitter 1/2 at every attempt. -/
theorem c2_cumulative_delay_bounds_witness :
    ((fetchWithRetry (fun _ => Outcome.resp 429 "Rate limited" ()) (fun _ => (1 : ℚ) / 2)).2).sum
        = 7000 + ((1 : ℚ) / 2 + 1 / 2 + 1 / 2) ∧
      7000 ≤ ((fetchWithRetry (fun _ => Outcome.resp 429 "Rate limited" ()) (fun _ => (1 : ℚ) / 2)).2).sum ∧
      ((fetchWithRetry (fun _ => Outcome.resp 429 "Rate limited" ()) (fun _ => (1 : ℚ) / 2)).2).sum
        < 10000 :=
  c2_cumulative_delay_bounds (fun _ => Outcome.resp 429 "Rate limited" ())
    (fun _ => (1 : ℚ) / 2) (fun _ => ⟨by norm_num, by norm_num⟩) rfl

/-- C4: on an HTTP 429 response with retries remaining, the invoker
sleeps a delay `d` with `2^attempt * 1000 ≤ d ≤ 2^attempt * 1000 + 1000`
and continues as the recursive call at `attempt + 1`; and on a server
answering HTTP 429 on every attempt, after exhausting the fixed maximum
of 3 retries it fails with the last observed error (the status-429 error
of the final attempt, carrying that attempt's body text). -/
theorem c4_rate_limited_retry_and_exhaustion :
    (∀ {α : Type} (trace : Nat → Outcome α) (jitter : Nat → ℚ) (retries : Nat)
        (bodyText : String) (payload : α),
        0 ≤ jitter retries → jitter retries < 1000 → retries < maxRetries →
        trace retries = Outcome.resp 429 bodyText payload →
        2 ^ retries * 1000 ≤ backoffDelay retries (jitter retries) ∧
          backoffDelay retries (jitter retries) ≤ 2 ^ retries * 1000 + 1000 ∧
          fetchFrom trace jitter retries
            = ((fetchFrom trace jitter (retries + 1)).1,
               backoffDelay retries (jitter retries)
                 :: (fetchFrom trace jitter (retries + 1)).2)) ∧
    (∀ {α : Type} (bodyText : Nat → String) (payload : Nat → α) (jitter : Nat → ℚ),
        (fetchWithRetry (fun i => Outcome.resp 429 (bodyText i) (payload i)) jitter).1
          = FetchResult.failure (FetchError.httpError 429 (bodyText 3))) := by
  constructor
  · intro α trace jitter retries bodyText payload hj0 hj1 hr htr
    refine ⟨le_add_of_nonneg_right hj0, by simp only [backoffDelay]; linarith, ?_⟩
    have hf : maxRetries + 1 - retries = (maxRetries + 1 - (retries + 1)) + 1 := by
      simp only [maxRetries] at hr ⊢
      omega
    simp only [fetchFrom, hf, fwr, htr]
    rw [if_neg (by simp [respOk]), if_pos ⟨trivial, hr⟩]
  · intro α bodyText payload jitter
    rfl

/-- Witness for C4 at a concrete input: constant 429 responses with
jitter 1/2. -/
theorem c4_rate_limited_retry_and_exhaustion_witness :
    ((2 : ℚ) ^ 0 * 1000 ≤ backoffDelay 0 ((1 : ℚ) / 2) ∧
      backoffDelay 0 ((1 : ℚ) / 2) ≤ 2 ^ 0 * 1000 + 1000 ∧
      fetchFrom (fun _ => Outcome.resp 429 "Rate limited" ()) (fun _ => (1 : ℚ) / 2) 0
        = ((fetchFrom (fun _ => Outcome.resp 429 "Rate limited" ()) (fun _ => (1 : ℚ) / 2) 1).1,
           backoffDelay 0 ((1 : ℚ) / 2)
             :: (fetchFrom (fun _ => Outcome.resp 429 "Rate limited" ()) (fun _ => (1 : ℚ) / 2) 1).2)) ∧
    (fetchWithRetry (fun _ => Outcome.resp 429 "Rate limited" ()) (fun _ => (1 : ℚ) / 2)).1
      = FetchResult.failure (FetchError.httpError 429 "Rate limited") :=
  ⟨c4_rate_limited_retry_and_exhaustion.1 (fun _ => Outcome.resp 429 "Rate limited" ())
      (fun _ => (1 : ℚ) / 2) 0 "Rate limited" () (by norm_num) (by norm_num)
      (by norm_num [maxRetries]) rfl,
    c4_rate_limited_retry_and_exhaustion.2 (fun _ => "Rate limited") (fun _ => ())
      (fun _ => (1 : ℚ) / 2)⟩

/-- C5: for every sample sequence and sample rate (within the 32-bit
field capacity of the RIFF format: `sampleRate * 2 < 2^32` and
`36 + 2 * sampleCount < 2^32`, forced by the 32-bit byte-rate and chunk
length fields), `pcmToWav` produces exactly 44 header bytes followed by
`2 * sampleCount` payload bytes with ASCII chunk IDs "RIFF"/"WAVE"/
"fmt "/"data", a fmt sub-chunk of size 16 declaring PCM format code 1,
channel count 1, the given sample rate, byte rate `sampleRate * 2`, block
align 2, bit depth 16, and a data sub-chunk length equal to the payload
byte length, all little-endian; and concretely, encoding
`[0, 32767, -32768, 100]` at 16000 Hz yields exactly 52 bytes with "RIFF"
at bytes 0-3, "WAVE" at bytes 8-11, little-endian 16000 at bytes 24-27,
and decoding the data chunk reproduces the original samples. -/
theorem c5_pcmToWav_layout_and_roundtrip :
    (∀ (pcm16 : List Int) (sampleRate : Nat),
        sampleRate * 2 < 4294967296 → 36 + 2 * pcm16.length < 4294967296 →
        (pcmToWav pcm16 sampleRate).length = 44 + 2 * pcm16.length ∧
        (pcmToWav pcm16 sampleRate).take 4 = asciiBytes "RIFF" ∧
        ((pcmToWav pcm16 sampleRate).drop 8).take 4 = asciiBytes "WAVE" ∧
        ((pcmToWav pcm16 sampleRate).drop 12).take 4 = asciiBytes "fmt " ∧
        readLE32 (pcmToWav pcm16 sampleRate) 16 = 16 ∧
        readLE16 (pcmToWav pcm16 sampleRate) 20 = 1 ∧
        readLE16 (pcmToWav pcm16 sampleRate) 22 = 1 ∧
        readLE32 (pcmToWav pcm16 sampleRate) 24 = sampleRate ∧
        readLE32 (pcmToWav pcm16 sampleRate) 28 = sampleRate * 2 ∧
        readLE16 (pcmToWav pcm16 sampleRate) 32 = 2 ∧
        readLE16 (pcmToWav pcm16 sampleRate) 34 = 16 ∧
        ((pcmToWav pcm16 sampleRate).drop 36).take 4 = asciiBytes "data" ∧
        readLE32 (pcmToWav pcm16 sampleRate) 40 = 2 * pcm16.length) ∧
    (pcmToWav [0, 32767, -32768, 100] 16000).length = 44 + 8 ∧
    (pcmToWav [0, 32767, -32768, 100] 16000).take 4 = asciiBytes "RIFF" ∧
    ((pcmToWav [0, 32767, -32768, 100] 16000).drop 8).take 4 = asciiBytes "WAVE" ∧
    readLE32 (pcmToWav [0, 32767, -32768, 100] 16000) 24 = 16000 ∧
    bytesToInt16List ((pcmToWav [0, 32767, -32768, 100] 16000).drop 44)
      = [0, 32767, -32768, 100] := by
  constructor
  · intro pcm16 sampleRate hsr hlen
    have hsr32 : sampleRate < 4294967296 := by omega
    have h24 : readLE32 (pcmToWav pcm16 sampleRate) 24
        = sampleRate % 256 + 256 * (sampleRate / 256 % 256) +
          65536 * (sampleRate / 65536 % 256) +
          16777216 * (sampleRate / 16777216 % 256) := by
      rw [readLE32, byteAt, byteAt, byteAt, byteAt, pcmToWav_cons]; rfl
    have h28 : readLE32 (pcmToWav pcm16 sampleRate) 28
        = sampleRate * 2 % 256 + 256 * (sampleRate * 2 / 256 % 256) +
          65536 * (sampleRate * 2 / 65536 % 256) +
          16777216 * (sampleRate * 2 / 16777216 % 256) := by
      rw [readLE32, byteAt, byteAt, byteAt, byteAt, pcmToWav_cons]; rfl
    have h40 : readLE32 (pcmToWav pcm16 sampleRate) 40
        = 2 * pcm16.length % 256 + 256 * (2 * pcm16.length / 256 % 256) +
          65536 * (2 * pcm16.length / 65536 % 256) +
          16777216 * (2 * pcm16.length / 16777216 % 256) := by
      rw [readLE32, byteAt, byteAt, byteAt, byteAt, pcmToWav_cons]; rfl
    refine ⟨pcmToWav_length pcm16 sampleRate, ?_, ?_, ?_, ?_, ?_, ?_,
      ?_, ?_, ?_, ?_, ?_, ?_⟩
    · rw [pcmToWav_cons]; rfl
    · rw [pcmToWav_cons]; rfl
    · rw [pcmToWav_cons]; rfl
    · rw [readLE32, byteAt, byteAt, byteAt, byteAt, pcmToWav_cons]; rfl
    · rw [readLE16, byteAt, byteAt, pcmToWav_cons]; rfl
    · rw [readLE16, byteAt, byteAt, pcmToWav_cons]; rfl
    · rw [h24]; exact le32_read sampleRate hsr32
    · rw [h28]; exact le32_read (sampleRate * 2) hsr
    · rw [readLE16, byteAt, byteAt, pcmToWav_cons]; rfl
    · rw [readLE16, byteAt, byteAt, pcmToWav_cons]; rfl
    · rw [pcmToWav_cons]; rfl
    · rw [h40]; exact le32_read (2 * pcm16.length) (by omega)
  · refine ⟨?_, ?_, ?_, ?_, ?_⟩
    · rw [pcmToWav_cons]; rfl
    · rw [pcmToWav_cons]; rfl
    · rw [pcmToWav_cons]; rfl
    · rw [readLE32, byteAt, byteAt, byteAt, byteAt, pcmToWav_cons]; rfl
    · rw [pcmToWav_cons]; rfl

/-- Witness for C5's universally quantified part at samples `[5, -5]` and
sample rate 8000 Hz. -/
theorem c5_pcmToWav_layout_witness :
    (8000 : Nat) * 2 < 4294967296 ∧ 36 + 2 * ([(5 : Int), -5].length) < 4294967296 ∧
      readLE32 (pcmToWav [(5 : Int), -5] 8000) 24 = 8000 :=
  ⟨by norm_num, by norm_num,
    (c5_pcmToWav_layout_and_roundtrip.1 [(5 : Int), -5] 8000 (by norm_num)
      (by norm_num)).2.2.2.2.2.2.2.1⟩

/-- C10: the WAV container is internally size-consistent: the RIFF
chunk-length field at bytes 4-7 equals `36 + 2 * sampleCount`, which is
the total length minus 8, and the data chunk-length field at bytes 40-43
equals `2 * sampleCount`, the total length minus 44 (within the 32-bit
capacity of those fields). -/
theorem c10_pcmToWav_size_consistency :
    ∀ (pcm16 : List Int) (sampleRate : Nat),
      36 + 2 * pcm16.length < 4294967296 →
      readLE32 (pcmToWav pcm16 sampleRate) 4 = 36 + 2 * pcm16.length ∧
      readLE32 (pcmToWav pcm16 sampleRate) 4 = (pcmToWav pcm16 sampleRate).length - 8 ∧
      readLE32 (pcmToWav pcm16 sampleRate) 40 = 2 * pcm16.length ∧
      readLE32 (pcmToWav pcm16 sampleRate) 40 = (pcmToWav pcm16 sampleRate).length - 44 := by
  intro pcm16 sampleRate hlen
  have h4 : readLE32 (pcmToWav pcm16 sampleRate) 4
      = (36 + 2 * pcm16.length) % 256 + 256 * ((36 + 2 * pcm16.length) / 256 % 256) +
        65536 * ((36 + 2 * pcm16.length) / 65536 % 256) +
        16777216 * ((36 + 2 * pcm16.length) / 16777216 % 256) := by
    rw [readLE32, byteAt, byteAt, byteAt, byteAt, pcmToWav_cons]; rfl
  have h40 : readLE32 (pcmToWav pcm16 sampleRate) 40
      = 2 * pcm16.length % 256 + 256 * (2 * pcm16.length / 256 % 256) +
        65536 * (2 * pcm16.length / 65536 % 256) +
        16777216 * (2 * pcm16.length / 16777216 % 256) := by
    rw [readLE32, byteAt, byteAt, byteAt, byteAt, pcmToWav_cons]; rfl
  have e4 : readLE32 (pcmToWav pcm16 sampleRate) 4 = 36 + 2 * pcm16.length := by
    rw [h4]; exact le32_read _ hlen
  have e40 : readLE32 (pcmToWav pcm16 sampleRate) 40 = 2 * pcm16.length := by
    rw [h40]; exact le32_read _ (by omega)
  have hl := pcmToWav_length pcm16 sampleRate
  exact ⟨e4, by rw [e4, hl]; omega, e40, by rw [e40, hl]; omega⟩

/-- Witness for C10 at samples `[1, 2]` and sample rate 44100 Hz. -/
theorem c10_pcmToWav_size_consistency_witness :
    36 + 2 * ([(1 : Int), 2].length) < 4294967296 ∧
      readLE32 (pcmToWav [(1 : Int), 2] 44100) 4 = 36 + 2 * ([(1 : Int), 2].length) ∧
      readLE32 (pcmToWav [(1 : Int), 2] 44100) 4 = (pcmToWav [(1 : Int), 2] 44100).length - 8 ∧
      readLE32 (pcmToWav [(1 : Int), 2] 44100) 40 = 2 * ([(1 : Int), 2].length) ∧
      readLE32 (pcmToWav [(1 : Int), 2] 44100) 40 = (pcmToWav [(1 : Int), 2] 44100).length - 44 :=
  ⟨by norm_num, c10_pcmToWav_size_consistency [(1 : Int), 2] 44100 (by norm_num)⟩

/-- Spec-side description of source extraction, written after the spec's
words: each grounding attribution carrying both a `web.uri` and a
`web.title` (nonempty) yields one `{uri, title}` source, in order; every
attribution missing either field is dropped. -/
def sourcesSpec (attrs : List GroundingAttribution) : List SourceRef :=
  attrs.filterMap (fun attribution =>
    match attribution.web with
    | none => none
    | some w =>
      match w.uri, w.title with
      | some u, some t =>
        if u ≠ "" ∧ t ≠ "" then some ⟨some u, some t⟩ else none
      | _, _ => none)

/-- The map-then-filter pipeline of the source agrees with the spec-side
filterMap description. -/
lemma extractSources_eq_sourcesSpec (attrs : List GroundingAttribution) :
    extractSources attrs = sourcesSpec attrs := by
  induction attrs with
  | nil => rfl
  | cons a rest ih =>
    simp only [extractSources, sourcesSpec, List.map_cons, List.filter_cons,
      List.filterMap_cons] at ih ⊢
    rcases a with ⟨_ | ⟨u, t⟩⟩
    · simpa [truthy] using ih
    · rcases u with _ | u
      · simpa [truthy] using ih
      · rcases t with _ | t
        · simpa [truthy] using ih
        · by_cases hue : u = ""
          · simpa [truthy, hue] using ih
          · by_cases hte : t = ""
            · simpa [truthy, hue, hte] using ih
            · simpa [truthy, hue, hte] using ih

/-- C6: on a well-formed text response (first candidate present with
truthy text), `generateTextContent` returns that candidate's text, and
its source list is exactly the spec-side extraction in which every
grounding attribution missing either the uri or the title is dropped;
concretely, a grounded response with one complete attribution and one
attribution missing `web.uri` yields exactly one source. -/
theorem c6_text_sources_extraction :
    (∀ (r : GenResponse) (candidate : Candidate) (text : String),
        firstCandidate r = some candidate → candidateText candidate = some text →
        text ≠ "" → (generateTextContent r).text = text) ∧
    (∀ (r : GenResponse) (candidate : Candidate) (text : String)
        (gm : GroundingMetadata) (attrs : List GroundingAttribution),
        firstCandidate r = some candidate → candidateText candidate = some text →
        text ≠ "" → candidate.groundingMetadata = some gm →
        gm.groundingAttributions = some attrs →
        (generateTextContent r).sources = sourcesSpec attrs) ∧
    (generateTextContent
        { candidates := some
            [{ content := some { parts := [{ text := some "answer" }] },
               groundingMetadata := some
                 { groundingAttributions := some
                     [{ web := some { uri := some "https://a.example", title := some "A" } },
                      { web := some { uri := none, title := some "B" } }] } }] }).sources
      = [{ uri := some "https://a.example", title := some "A" }] ∧
    (generateTextContent
        { candidates := some
            [{ content := some { parts := [{ text := some "answer" }] },
               groundingMetadata := some
                 { groundingAttributions := some
                     [{ web := some { uri := some "https://a.example", title := some "A" } },
                      { web := some { uri := none, title := some "B" } }] } }] }).sources.length
      = 1 := by
  refine ⟨?_, ?_, rfl, rfl⟩
  · intro r candidate text h1 h2 h3
    simp [generateTextContent, h1, h2, h3]
  · intro r candidate text gm attrs h1 h2 h3 h4 h5
    simp [generateTextContent, h1, h2, h3, h4, h5, extractSources_eq_sourcesSpec]

/-- Witness for C6 at a concrete grounded response. -/
theorem c6_text_sources_extraction_witness :
    firstCandidate
        { candidates := some
            [{ content := some { parts := [{ text := some "hello" }] },
               groundingMetadata := some { groundingAttributions := some [] } }] }
      = some { content := some { parts := [{ text := some "hello" }] },
               groundingMetadata := some { groundingAttributions := some [] } } ∧
    (generateTextContent
        { candidates := some
            [{ content := some { parts := [{ text := some "hello" }] },
               groundingMetadata := some { groundingAttributions := some [] } }] }).text
      = "hello" ∧
    (generateTextContent
        { candidates := some
            [{ content := some { parts := [{ text := some "hello" }] },
               groundingMetadata := some { groundingAttributions := some [] } }] }).sources
      = sourcesSpec [] :=
  ⟨rfl,
    c6_text_sources_extraction.1 _ _ "hello" rfl rfl (by decide),
    c6_text_sources_extraction.2.1 _ _ "hello" _ [] rfl rfl (by decide) rfl rfl⟩

/-- A JSON value that is a single-element array whose element is an
object tagged with type "error" and carrying non-empty question and
answer strings (the user-facing diagnostic). -/
def isErrorItemList (j : Json) : Prop :=
  ∃ fields q a, j = Json.arr [Json.obj fields] ∧
    ("type", Json.str "error") ∈ fields ∧
    ("question", Json.str q) ∈ fields ∧ q ≠ "" ∧
    ("answer", Json.str a) ∈ fields ∧ a ≠ ""

/-- C7: whenever the structured response's text is absent, empty (falsy),
or fails to parse as JSON, `generateStructuredStudyContent` returns the
fixed single-element error-tagged list — a total function of the
response, so no parse exception reaches the caller; in particular the
response whose text is "not valid json" yields exactly that error list. -/
theorem c7_structured_parse_failure_returns_error_item :
    (∀ (r : GenResponse),
        ((firstCandidate r).bind candidateText = none ∨
          (firstCandidate r).bind candidateText = some "" ∨
          ∃ s, (firstCandidate r).bind candidateText = some s ∧ jsonParse s = none) →
        generateStructuredStudyContent r = structuredErrorResult) ∧
    isErrorItemList structuredErrorResult ∧
    generateStructuredStudyContent
        { candidates := some
            [{ content := some { parts := [{ text := some "not valid json" }] } }] }
      = structuredErrorResult := by
  refine ⟨?_, ?_, rfl⟩
  · intro r h
    rcases h with h | h | ⟨s, hs, hp⟩
    · simp [generateStructuredStudyContent, h]
    · simp [generateStructuredStudyContent, h]
    · by_cases he : s = ""
      · simp [generateStructuredStudyContent, hs, he]
      · simp [generateStructuredStudyContent, hs, he, hp]
  · exact ⟨[("type", Json.str "error"),
      ("question", Json.str "Error generating study material."),
      ("answer", Json.str "Please try again with a clearer prompt.")],
      "Error generating study material.",
      "Please try again with a clearer prompt.",
      rfl, by simp, by simp, by simp, by simp, by simp⟩

/-- Witness for C7's universally quantified part at a response with no
candidates at all (text absent). -/
theorem c7_structured_parse_failure_witness :
    (firstCandidate ({ candidates := none } : GenResponse)).bind candidateText = none ∧
      generateStructuredStudyContent ({ candidates := none } : GenResponse)
        = structuredErrorResult :=
  ⟨rfl, c7_structured_parse_failure_returns_error_item.1 { candidates := none } (Or.inl rfl)⟩

/-- C3 (counterexample): the claim says that for an undecodable inline
audio payload `generateTTSAudio` returns null and never raises.  On a
response with truthy data "!!!" (not valid base64) and a matching
`audio/L16` MIME type, the source calls `atob`, which throws an
`InvalidCharacterError` that nothing catches — the call raises instead of
returning null. -/
theorem c3_counterexample_invalid_base64_raises :
    generateTTSAudio
        { candidates := some
            [{ content := some { parts :=
                [{ inlineData := some
                    { data := some "!!!", mimeType := some "audio/L16;rate=24000" } }] } }] }
      = Except.error TTSError.invalidBase64 ∧
    generateTTSAudio
        { candidates := some
            [{ content := some { parts :=
                [{ inlineData := some
                    { data := some "!!!", mimeType := some "audio/L16;rate=24000" } }] } }] }
      ≠ Except.ok none := by
  have e : generateTTSAudio
      { candidates := some
          [{ content := some { parts :=
              [{ inlineData := some
                  { data := some "!!!", mimeType := some "audio/L16;rate=24000" } }] } }] }
    = Except.error TTSError.invalidBase64 := rfl
  refine ⟨e, ?_⟩
  intro h
  exact Except.noConfusion (e.symm.trans h)

/-- C3 (amended): `generateTTSAudio` returns null without raising
whenever the inline audio data is absent or empty, the MIME type is
absent, or the MIME type does not begin with the raw-PCM marker
`audio/L16`; but a payload that passes those checks and is not decodable
base64 makes the `atob` call raise (it is not converted to null). -/
theorem c3_tts_missing_or_mismatched_returns_null (r : GenResponse)
    (h : ttsAudioData r = none ∨ ttsAudioData r = some "" ∨ ttsMimeType r = none ∨
      ∀ m, ttsMimeType r = some m → strStartsWith m "audio/L16" = false) :
    generateTTSAudio r = Except.ok none := by
  rcases h with h | h | h | h
  · simp [generateTTSAudio, h]
  · cases hm : ttsMimeType r with
    | none => simp [generateTTSAudio, h, hm]
    | some m => simp [generateTTSAudio, h, hm]
  · cases hd : ttsAudioData r with
    | none => simp [generateTTSAudio, h, hd]
    | some d => simp [generateTTSAudio, h, hd]
  · cases hd : ttsAudioData r with
    | none => simp [generateTTSAudio, hd]
    | some d =>
      cases hm : ttsMimeType r with
      | none => simp [generateTTSAudio, hd, hm]
      | some m => simp [generateTTSAudio, hd, hm, h m hm]

/-- Witness for the amended C3: a response with no candidates returns
null. -/
theorem c3_tts_missing_returns_null_witness :
    generateTTSAudio ({ candidates := none } : GenResponse) = Except.ok none :=
  c3_tts_missing_or_mismatched_returns_null { candidates := none } (Or.inl rfl)

/-- C8: the synthesizer takes its decoding sample rate from the
`rate=(\d+)` parameter of the MIME type, falling back to 24000 Hz exactly
when the regex does not match; on the fully validated path the WAV output
is encoded at that extracted rate, and concretely the MIME type
`audio/L16;rate=48000` decodes at 48000 Hz, not the 24000 default. -/
theorem c8_tts_sample_rate_extraction :
    (∀ (m : String) (n : Nat), extractRate m = some n → ttsSampleRate m = n) ∧
    (∀ (m : String), extractRate m = none → ttsSampleRate m = 24000) ∧
    ttsSampleRate "audio/L16;rate=48000" = 48000 ∧
    ttsSampleRate "audio/L16;rate=48000" ≠ 24000 ∧
    (∀ (r : GenResponse) (d m : String) (bytes : List Nat),
        ttsAudioData r = some d → d ≠ "" → ttsMimeType r = some m →
        strStartsWith m "audio/L16" = true → atobBytes d = some bytes →
        bytes.length % 2 = 0 →
        generateTTSAudio r
          = Except.ok (some (pcmToWav (bytesToInt16List bytes) (ttsSampleRate m)))) ∧
    generateTTSAudio
        { candidates := some
            [{ content := some { parts :=
                [{ inlineData := some
                    { data := some "AAA=", mimeType := some "audio/L16;rate=48000" } }] } }] }
      = Except.ok (some (pcmToWav [0] 48000)) := by
  refine ⟨?_, ?_, rfl, by decide, ?_, rfl⟩
  · intro m n h; simp [ttsSampleRate, h]
  · intro m h; simp [ttsSampleRate, h]
  · intro r d m bytes hd hde hm hsw hb hlen
    simp [generateTTSAudio, hd, hm, hde, hsw, hb, hlen]

/-- Witness for C8 at the concrete MIME type `audio/L16;rate=48000`. -/
theorem c8_tts_sample_rate_extraction_witness :
    extractRate "audio/L16;rate=48000" = some 48000 ∧
      ttsSampleRate "audio/L16;rate=48000" = 48000 :=
  ⟨rfl, c8_tts_sample_rate_extraction.1 "audio/L16;rate=48000" 48000 rfl⟩

/-- C9: `generateImageContent` returns an absent result, without raising
(it is a total function of the response), when the `predictions` field is
missing, empty, or its first prediction carries no truthy base64 payload;
on success it returns the data-URI-style string carrying the `image/png`
base64 payload. -/
theorem c9_image_missing_predictions_behavior :
    (∀ (r : ImageResponse), r.predictions = none → generateImageContent r = none) ∧
    (∀ (r : ImageResponse), r.predictions = some [] → generateImageContent r = none) ∧
    (∀ (r : ImageResponse) (p : Prediction) (rest : List Prediction),
        r.predictions = some (p :: rest) →
        (p.bytesBase64Encoded = none ∨ p.bytesBase64Encoded = some "") →
        generateImageContent r = none) ∧
    (∀ (r : ImageResponse) (p : Prediction) (rest : List Prediction) (s : String),
        r.predictions = some (p :: rest) → p.bytesBase64Encoded = some s → s ≠ "" →
        generateImageContent r = some ("data:image/png;base64," ++ s)) := by
  refine ⟨?_, ?_, ?_, ?_⟩
  · intro r h; simp [generateImageContent, h]
  · intro r h; simp [generateImageContent, h]
  · intro r p rest h hb
    rcases hb with hb | hb <;> simp [generateImageContent, h, hb]
  · intro r p rest s h hb hs
    simp [generateImageContent, h, hb, hs]

/-- Witness for C9: a response with no `predictions` field yields null,
and a response with a payload yields the data URI. -/
theorem c9_image_missing_predictions_witness :
    generateImageContent { predictions := none } = none ∧
      generateImageContent { predictions := some [{ bytesBase64Encoded := some "abc" }] }
        = some "data:image/png;base64,abc" :=
  ⟨c9_image_missing_predictions_behavior.1 { predictions := none } rfl,
    c9_image_missing_predictions_behavior.2.2.2
      { predictions := some [{ bytesBase64Encoded := some "abc" }] }
      { bytesBase64Encoded := some "abc" } [] "abc" rfl rfl (by decide)⟩

end ApiService
